import Mathlib

/-!
Verification of the RAG_Application service (`src/main.py`) against its
natural-language specification.

The program is a FastAPI question-answering service: at startup it chunks four
fixed articles, embeds them and builds a FAISS vector store held in the
process-wide global `vector_store`; the single endpoint `POST /ask` retrieves
the top-2 chunks for the question, asks an Ollama model to answer from that
context, and post-processes the generated text with a sentinel check.

The embedding below follows `src/main.py` line by line.  External collaborators
(the embedding model, the FAISS nearest-neighbor query, the LLM) are opaque
services consumed through narrow interfaces; they appear as parameters
(`Oracle`) or, for the FAISS top-k query, as a definition modelled from the
spec's description of the interface.  Exceptions are modelled with `Except`.
-/

namespace RAGApp

/-- A document as used by `main.py`: `page_content` plus the single `source`
metadata entry (`Document(page_content=..., metadata={"source": ...})`). -/
structure Document where
  page_content : String
  source : String
deriving Repr, DecidableEq

/-- The Pydantic request model `AskRequest` (line 90). -/
structure AskRequest where
  question : String
deriving Repr, DecidableEq

/-- The Pydantic response model `AskResponse` (line 93): answer, source and a
status that is "ANSWERED_FROM_CONTEXT" or "CONTEXT_NOT_FOUND". -/
structure AskResponse where
  answer : String
  source : String
  status : String
deriving Repr, DecidableEq

/-- A FastAPI `HTTPException` carrying a status code and a detail message. -/
structure HTTPException where
  status_code : Nat
  detail : String
deriving Repr, DecidableEq

/-- An entry of the vector store: a chunk together with its embedding vector
(the spec's "collection of (Embedding, Chunk) pairs"). -/
structure IndexEntry where
  embedding : List Int
  chunk : Document
deriving Repr, DecidableEq

/-- The FAISS vector store: the in-memory collection of (embedding, chunk)
pairs built at startup. -/
abbrev VectorStore := List IndexEntry

/-- Python truthiness of a string: a string is truthy iff it is non-empty. -/
def pyTruthy (s : String) : Bool :=
  s != ""

/-- Whether `needle` starts `haystack` (character-wise). -/
def startsWithChars : List Char → List Char → Bool
  | [], _ => true
  | _ :: _, [] => false
  | n :: ns, h :: hs => n == h && startsWithChars ns hs

/-- Whether `needle` occurs contiguously in `haystack` (character lists). -/
def containsChars (needle : List Char) : List Char → Bool
  | [] => startsWithChars needle []
  | h :: hs => startsWithChars needle (h :: hs) || containsChars needle hs

/-- Python's `needle in haystack` membership test on strings: substring
containment. -/
def pyIn (needle haystack : String) : Bool :=
  containsChars needle.toList haystack.toList

/-- The condition of line 143 exactly as Python parses it:
`"CONTEXT_NOT_FOUND" or ("context_not_found" or ("ConTEXT_NOT_FOUND" in answer))`.
`x or y` short-circuits on the truthiness of `x`, and the `if` takes the
truthiness of the resulting value; only the last literal is an operand of
`in`. -/
def sentinelCondition (answer : String) : Bool :=
  pyTruthy "CONTEXT_NOT_FOUND" ||
    (pyTruthy "context_not_found" || pyIn "ConTEXT_NOT_FOUND" answer)

/-- The sentinel check as the spec words it ("an explicit disjunction of
containment checks" over the accepted spellings of the sentinel token).  This
definition follows the spec, not the code; it exists to be compared with
`sentinelCondition`. -/
def sentinelIntended (answer : String) : Bool :=
  pyIn "CONTEXT_NOT_FOUND" answer || pyIn "context_not_found" answer ||
    pyIn "ConTEXT_NOT_FOUND" answer

/-- The result dictionary returned by `retrieval_chain.invoke`: the handler
reads the "answer" and "context" keys with `.get` and a default, so each key
may be absent (`none`). -/
structure ChainResponse where
  answer : Option String
  context : Option (List Document)
deriving Repr, DecidableEq

/-- The external services consumed per request: the embedding of the question
text and the LLM generation step (`OllamaLLM` through
`create_stuff_documents_chain`).  Either may raise, modelled by `Except`. -/
structure Oracle where
  embed : String → Except String (List Int)
  generate : String → List Document → Except String String

/-- `k` as fixed on line 129: `vector_store.as_retriever(search_kwargs={'k': 2})`. -/
def TOP_K : Nat := 2

/-- Modelled from the spec: the FAISS nearest-neighbor query is an external
library call not in this repository; the spec describes it as
`query(vector, k) -> ranked list`, ranking by similarity to the query vector
and returning the top `k`.  Similarity is modelled as an inner product. -/
def similarity (u v : List Int) : Int :=
  (List.zipWith (fun a b => a * b) u v).sum

/-- Modelled from the spec: insert an entry into a list kept ranked by
decreasing similarity to the query vector. -/
def insertRanked (qvec : List Int) (e : IndexEntry) : List IndexEntry → List IndexEntry
  | [] => [e]
  | x :: xs =>
    if similarity x.embedding qvec ≤ similarity e.embedding qvec then
      e :: x :: xs
    else
      x :: insertRanked qvec e xs

/-- Modelled from the spec: all index entries ranked by similarity to the
query vector. -/
def rankBySimilarity (store : VectorStore) (qvec : List Int) : List IndexEntry :=
  store.foldr (insertRanked qvec) []

/-- Modelled from the spec: the retriever — the `k` chunks of the store most
similar to the query vector, in ranked order. -/
def retrieve (store : VectorStore) (qvec : List Int) (k : Nat) : List Document :=
  (List.map (fun e => e.chunk) (rankBySimilarity store qvec)).take k

/-- `retrieval_chain.invoke({"input": question})` (lines 129–134): the chain
built by `create_retrieval_chain(retriever, document_chain)` embeds the
question, retrieves the top-`TOP_K` chunks, runs the LLM on the question and
that context, and returns the result dictionary with the "context" and
"answer" keys. -/
def invokeChain (store : VectorStore) (o : Oracle) (question : String) :
    Except String ChainResponse :=
  match o.embed question with
  | .error e => .error e
  | .ok qvec =>
    match o.generate question (retrieve store qvec TOP_K) with
    | .error e => .error e
    | .ok ans => .ok { answer := some ans, context := some (retrieve store qvec TOP_K) }

/-- Lines 136–154 of `ask_question`: read the "answer" key (default `""`) and
strip it, read the "context" key (default `[]`), join the chunk texts with
`"\n---\n"` as the provenance string, test the line-143 sentinel condition and
build the `AskResponse`. -/
def formatResponse (response : ChainResponse) : AskResponse :=
  let answer := (response.answer.getD "").trim
  let context_docs := response.context.getD []
  let source_text := String.intercalate "\n---\n"
    (context_docs.map (fun doc => doc.page_content))
  if sentinelCondition answer then
    { answer := "I could not find an answer to your question in the provided marketing articles.",
      source := "No relevant context found.",
      status := "CONTEXT_NOT_FOUND" }
  else
    { answer := answer,
      source := source_text,
      status := "ANSWERED_FROM_CONTEXT" }

/-- The `/ask` handler `ask_question` (lines 100–158).  The first argument is
the value of the process-wide global `vector_store` (`None` until startup
succeeds).  If the store is `None` the handler raises HTTP 500 "Vector store
is not available." (lines 104–106); otherwise it runs the chain inside
`try`, returning HTTP 500 with the exception text on any exception
(lines 156–158), and the formatted response on success. -/
def ask_question (store : Option VectorStore) (o : Oracle) (request : AskRequest) :
    Except HTTPException AskResponse :=
  match store with
  | none => .error { status_code := 500, detail := "Vector store is not available." }
  | some vs =>
    match invokeChain vs o request.question with
    | .error e =>
      .error { status_code := 500,
               detail := "An error occurred while processing your request: " ++ e }
    | .ok response => .ok (formatResponse response)

/-- `ask_question` as a transition on the process-wide global `vector_store`:
the pair of the handler's outcome and the value of the global afterwards.  The
body of `ask_question` in the source reads the global on line 104 and contains
no assignment to it. -/
def ask_question_run (o : Oracle) (req : AskRequest) :
    StateM (Option VectorStore) (Except HTTPException AskResponse) := do
  let store ← get
  pure (ask_question store o req)

/-- The outcomes of the three startup steps of `startup_event` (lines 69–80):
splitting the knowledge base into chunks, loading the embeddings model, and
building the FAISS store from the chunks.  Each delegates to an external
library and may raise. -/
structure StartupSteps where
  split : Except String (List Document)
  embedModel : Except String Unit
  buildStore : List Document → Except String VectorStore

/-- `startup_event` (lines 61–86): run the three build steps in order inside
`try`; on any exception re-raise `RuntimeError("Failed to initialize the RAG
pipeline: ...")`, so the process does not become ready; on success the global
`vector_store` is the fully built store. -/
def startup_event (steps : StartupSteps) : Except String VectorStore :=
  match steps.split with
  | .error e => .error ("Failed to initialize the RAG pipeline: " ++ e)
  | .ok chunks =>
    match steps.embedModel with
    | .error e => .error ("Failed to initialize the RAG pipeline: " ++ e)
    | .ok _ =>
      match steps.buildStore chunks with
      | .error e => .error ("Failed to initialize the RAG pipeline: " ++ e)
      | .ok vs => .ok vs

/-! ### Helper lemmas (shared; not claim theorems) -/

/-- The line-143 condition is truthy for every answer string: its first `or`
operand is the non-empty literal `"CONTEXT_NOT_FOUND"`. -/
theorem sentinelCondition_true (answer : String) : sentinelCondition answer = true := by
  have h : pyTruthy "CONTEXT_NOT_FOUND" = true := by decide
  simp [sentinelCondition, h]

/-- Consequently `formatResponse` always takes the "not found" branch. -/
theorem formatResponse_eq (response : ChainResponse) :
    formatResponse response =
      { answer := "I could not find an answer to your question in the provided marketing articles.",
        source := "No relevant context found.",
        status := "CONTEXT_NOT_FOUND" } := by
  simp [formatResponse, sentinelCondition_true]

/-- The modelled retriever returns at most `k` chunks. -/
theorem retrieve_length_le (store : VectorStore) (qvec : List Int) (k : Nat) :
    (retrieve store qvec k).length ≤ k := by
  simp [retrieve, List.length_take]

/-- The chain is a function of the question and the oracle's pointwise
behavior: oracles that agree pointwise give the same chain result. -/
theorem invokeChain_congr (store : VectorStore) (o₁ o₂ : Oracle)
    (hE : ∀ q, o₁.embed q = o₂.embed q)
    (hG : ∀ q ctx, o₁.generate q ctx = o₂.generate q ctx) (question : String) :
    invokeChain store o₁ question = invokeChain store o₂ question := by
  unfold invokeChain
  rw [hE question]
  cases h : o₂.embed question with
  | error e => rfl
  | ok qvec =>
    dsimp only
    rw [hG question (retrieve store qvec TOP_K)]

/-- Handler congruence: pointwise-equal oracles give the same response. -/
theorem ask_question_congr (store : Option VectorStore) (o₁ o₂ : Oracle)
    (hE : ∀ q, o₁.embed q = o₂.embed q)
    (hG : ∀ q ctx, o₁.generate q ctx = o₂.generate q ctx) (req : AskRequest) :
    ask_question store o₁ req = ask_question store o₂ req := by
  cases store with
  | none => rfl
  | some vs =>
    unfold ask_question
    dsimp only
    rw [invokeChain_congr vs o₁ o₂ hE hG req.question]

/-- The state-threaded handler never changes the global `vector_store`. -/
theorem ask_question_run_state (o : Oracle) (req : AskRequest)
    (s : Option VectorStore) :
    ((ask_question_run o req).run s).2 = s := rfl

/-- The state-threaded handler and the pure handler agree. -/
theorem ask_question_run_fst (o : Oracle) (req : AskRequest)
    (s : Option VectorStore) :
    ((ask_question_run o req).run s).1 = ask_question s o req := rfl

/-- A concrete oracle whose generator succeeds. -/
def demoOracle : Oracle where
  embed := fun _ => .ok [1, 0]
  generate := fun _ _ => .ok "ok"

/-- A concrete oracle whose generator raises. -/
def failOracle : Oracle where
  embed := fun _ => .ok [1, 0]
  generate := fun _ _ => .error "boom"

/-! ### Claim theorems -/

/-- C1: the claim says sentinel detection in `ask_question` is a true
containment test.  The code is not: at the concrete generated answer
"Start with a small daily budget." — which contains no accepted spelling of
the sentinel token (`sentinelIntended`, the spec's explicit disjunction of
containment checks, is `false` on it) — the line-143 condition is still
truthy, so the handler returns the CONTEXT_NOT_FOUND fallback response
instead of the generator's verbatim text with the provenance string. -/
theorem sentinel_not_containment_code_bug :
    sentinelIntended "Start with a small daily budget." = false ∧
    sentinelCondition "Start with a small daily budget." = true ∧
    formatResponse
        { answer := some "Start with a small daily budget.",
          context := some [{ page_content := "Article 1: Introduction to Google Ads for Small Business",
                             source := "Article 1: Introduction to Google Ads" }] } =
      { answer := "I could not find an answer to your question in the provided marketing articles.",
        source := "No relevant context found.",
        status := "CONTEXT_NOT_FOUND" } :=
  ⟨by decide, sentinelCondition_true _, formatResponse_eq _⟩

/-- C2: the sentinel membership expression of line 143 is truthy for every
answer string (Python operator precedence: the first non-empty string literal
makes the disjunction unconditionally truthy), so every request that completes
without an exception returns status "CONTEXT_NOT_FOUND", the fixed fallback
answer, and the fixed "No relevant context found." source, regardless of the
generator's output. -/
theorem ask_question_always_context_not_found (store : VectorStore) (o : Oracle)
    (req : AskRequest) (resp : AskResponse)
    (h : ask_question (some store) o req = .ok resp) :
    resp.status = "CONTEXT_NOT_FOUND" ∧
    resp.answer = "I could not find an answer to your question in the provided marketing articles." ∧
    resp.source = "No relevant context found." := by
  unfold ask_question at h
  dsimp only at h
  cases hc : invokeChain store o req.question with
  | error e => rw [hc] at h; exact Except.noConfusion h
  | ok r =>
    rw [hc] at h
    dsimp only at h
    injection h with h₂
    rw [formatResponse_eq r] at h₂
    rw [← h₂]
    exact ⟨rfl, rfl, rfl⟩

/-- Witness for C2 at a concrete store, oracle and request. -/
theorem ask_question_always_context_not_found_witness :
    ({ answer := "I could not find an answer to your question in the provided marketing articles.",
       source := "No relevant context found.",
       status := "CONTEXT_NOT_FOUND" } : AskResponse).status = "CONTEXT_NOT_FOUND" ∧
    ({ answer := "I could not find an answer to your question in the provided marketing articles.",
       source := "No relevant context found.",
       status := "CONTEXT_NOT_FOUND" } : AskResponse).answer
      = "I could not find an answer to your question in the provided marketing articles." ∧
    ({ answer := "I could not find an answer to your question in the provided marketing articles.",
       source := "No relevant context found.",
       status := "CONTEXT_NOT_FOUND" } : AskResponse).source = "No relevant context found." :=
  ask_question_always_context_not_found [] demoOracle { question := "q" }
    { answer := "I could not find an answer to your question in the provided marketing articles.",
      source := "No relevant context found.",
      status := "CONTEXT_NOT_FOUND" } rfl

/-- C3: while the global `vector_store` is still `None`, every request to
POST /ask returns HTTP 500 with the detail "Vector store is not available.",
for every oracle — so the retrieval/generation pipeline is never consulted
and the handler, a total function, neither crashes nor hangs. -/
theorem ask_question_uninitialized (o : Oracle) (req : AskRequest) :
    ask_question none o req =
      .error { status_code := 500, detail := "Vector store is not available." } := rfl

/-- C4: startup is fail-fast.  Either some build step failed and
`startup_event` re-raises the fatal "Failed to initialize the RAG pipeline"
error (the process does not become ready), or every step succeeded and the
resulting store is exactly the fully built one — there is no third outcome
with a partially built index. -/
theorem startup_event_fail_fast (steps : StartupSteps) :
    (∃ e, startup_event steps = .error ("Failed to initialize the RAG pipeline: " ++ e)) ∨
    (∃ chunks vs, steps.split = .ok chunks ∧ steps.embedModel = .ok () ∧
      steps.buildStore chunks = .ok vs ∧ startup_event steps = .ok vs) := by
  cases hs : steps.split with
  | error e => exact Or.inl ⟨e, by simp [startup_event, hs]⟩
  | ok chunks =>
    cases he : steps.embedModel with
    | error e => exact Or.inl ⟨e, by simp [startup_event, hs, he]⟩
    | ok u =>
      cases hb : steps.buildStore chunks with
      | error e => exact Or.inl ⟨e, by simp [startup_event, hs, he, hb]⟩
      | ok vs =>
        cases u
        exact Or.inr ⟨chunks, vs, rfl, rfl, hb, by simp [startup_event, hs, he, hb]⟩

/-- C5: with an initialized index, if the chain invocation raises, the
handler catches the exception and returns HTTP 500 with the generic detail
message — no partial answer/source/status response is produced. -/
theorem ask_question_exception_500 (store : VectorStore) (o : Oracle)
    (req : AskRequest) (e : String)
    (h : invokeChain store o req.question = .error e) :
    ask_question (some store) o req =
      .error { status_code := 500,
               detail := "An error occurred while processing your request: " ++ e } := by
  simp [ask_question, h]

/-- Witness for C5 with a generator that raises. -/
theorem ask_question_exception_500_witness :
    ask_question (some []) failOracle { question := "q" } =
      .error { status_code := 500,
               detail := "An error occurred while processing your request: " ++ "boom" } :=
  ask_question_exception_500 [] failOracle { question := "q" } "boom" rfl

/-- C6: the retriever is configured with the fixed constant K = 2
(line 129), and the retrieved context carried in any successful chain result
— the list the generator saw and the one the provenance string is built from
— contains at most K chunks. -/
theorem ask_question_topk (store : VectorStore) (o : Oracle) (q : String)
    (resp : ChainResponse) (h : invokeChain store o q = .ok resp) :
    TOP_K = 2 ∧ (resp.context.getD []).length ≤ TOP_K := by
  refine ⟨rfl, ?_⟩
  unfold invokeChain at h
  cases hE : o.embed q with
  | error e => rw [hE] at h; exact Except.noConfusion h
  | ok qvec =>
    rw [hE] at h
    dsimp only at h
    cases hG : o.generate q (retrieve store qvec TOP_K) with
    | error e => rw [hG] at h; exact Except.noConfusion h
    | ok ans =>
      rw [hG] at h
      dsimp only at h
      injection h with h₂
      rw [← h₂]
      dsimp only [Option.getD]
      exact retrieve_length_le store qvec TOP_K

/-- Witness for C6 at a concrete store, oracle and question. -/
theorem ask_question_topk_witness :
    TOP_K = 2 ∧
    ((({ answer := some "ok", context := some [] } : ChainResponse).context.getD []).length
      ≤ TOP_K) :=
  ask_question_topk [] demoOracle "q" { answer := some "ok", context := some [] } rfl

/-- C7: determinism round-trip — with the same unchanged index and
pointwise-equal (deterministic) embedding and generation functions, two
invocations of the /ask handler on the same question yield identical
responses (same answer, source and status). -/
theorem ask_question_deterministic (store : Option VectorStore) (o₁ o₂ : Oracle)
    (hE : ∀ q, o₁.embed q = o₂.embed q)
    (hG : ∀ q ctx, o₁.generate q ctx = o₂.generate q ctx) (req : AskRequest) :
    ask_question store o₁ req = ask_question store o₂ req :=
  ask_question_congr store o₁ o₂ hE hG req

/-- Witness for C7 at a concrete store, oracle and request. -/
theorem ask_question_deterministic_witness :
    ask_question (some []) demoOracle { question := "q" } =
      ask_question (some []) demoOracle { question := "q" } :=
  ask_question_deterministic (some []) demoOracle demoOracle (fun _ => rfl)
    (fun _ _ => rfl) { question := "q" }

/-- C8: the index is read-only after startup.  Handling any request leaves
the process-wide `vector_store` unchanged, and consequently handling a first
request does not affect a second request's outcome. -/
theorem ask_question_index_readonly (o₁ o₂ : Oracle) (r₁ r₂ : AskRequest)
    (s : Option VectorStore) :
    ((ask_question_run o₁ r₁).run s).2 = s ∧
    ((ask_question_run o₂ r₂).run ((ask_question_run o₁ r₁).run s).2).1 =
      ((ask_question_run o₂ r₂).run s).1 := by
  refine ⟨ask_question_run_state o₁ r₁ s, ?_⟩
  rw [ask_question_run_state o₁ r₁ s]

/-- C9: the empty question does not crash — with an initialized index the
handler on `{"question": ""}` returns either a well-formed response whose
status is one of the two tags, or a caught HTTP 500 error; and its behavior
is deterministic given deterministic embedding and generation functions. -/
theorem ask_question_empty_question (store : VectorStore) (o₁ o₂ : Oracle)
    (hE : ∀ q, o₁.embed q = o₂.embed q)
    (hG : ∀ q ctx, o₁.generate q ctx = o₂.generate q ctx) :
    ((∃ r, ask_question (some store) o₁ { question := "" } = .ok r ∧
        (r.status = "CONTEXT_NOT_FOUND" ∨ r.status = "ANSWERED_FROM_CONTEXT")) ∨
      (∃ e, ask_question (some store) o₁ { question := "" } = .error e ∧
        e.status_code = 500)) ∧
    ask_question (some store) o₁ { question := "" } =
      ask_question (some store) o₂ { question := "" } := by
  constructor
  · unfold ask_question
    dsimp only
    cases hc : invokeChain store o₁ "" with
    | error e => exact Or.inr ⟨_, rfl, rfl⟩
    | ok r =>
      refine Or.inl ⟨formatResponse r, rfl, ?_⟩
      rw [formatResponse_eq r]
      exact Or.inl rfl
  · exact ask_question_congr (some store) o₁ o₂ hE hG { question := "" }

/-- Witness for C9 at a concrete store and oracle. -/
theorem ask_question_empty_question_witness :
    ((∃ r, ask_question (some []) demoOracle { question := "" } = .ok r ∧
        (r.status = "CONTEXT_NOT_FOUND" ∨ r.status = "ANSWERED_FROM_CONTEXT")) ∨
      (∃ e, ask_question (some []) demoOracle { question := "" } = .error e ∧
        e.status_code = 500)) ∧
    ask_question (some []) demoOracle { question := "" } =
      ask_question (some []) demoOracle { question := "" } :=
  ask_question_empty_question [] demoOracle demoOracle (fun _ => rfl) (fun _ _ => rfl)

/-- C10: if the chain's result dictionary lacks the "answer" key or the
"context" key (either one, or both), the handler does not raise: line 136
substitutes the empty string (then strips) for a missing answer and line 137
the empty list for a missing context — each key independently, leaving a
present key untouched — and the returned AskResponse still has its status,
answer and source fields populated. -/
theorem ask_question_missing_keys (resp : ChainResponse)
    (h : resp.answer = none ∨ resp.context = none) :
    (resp.answer = none →
      formatResponse resp = formatResponse { answer := some "", context := resp.context }) ∧
    (resp.context = none →
      formatResponse resp = formatResponse { answer := resp.answer, context := some [] }) ∧
    (formatResponse resp).status ≠ "" ∧
    (formatResponse resp).answer ≠ "" ∧
    (formatResponse resp).source ≠ "" := by
  obtain ⟨a, c⟩ := resp
  refine ⟨?_, ?_, ?_, ?_, ?_⟩
  · intro h₁
    dsimp only at h₁
    subst h₁
    rfl
  · intro h₂
    dsimp only at h₂
    subst h₂
    rfl
  · rw [formatResponse_eq]
    decide
  · rw [formatResponse_eq]
    decide
  · rw [formatResponse_eq]
    decide

/-- Witness for C10 at a dictionary missing only the "answer" key. -/
theorem ask_question_missing_keys_witness :
    (({ answer := none, context := some [] } : ChainResponse).answer = none →
      formatResponse { answer := none, context := some [] } =
        formatResponse { answer := some "", context := some [] }) ∧
    (({ answer := none, context := some [] } : ChainResponse).context = none →
      formatResponse { answer := none, context := some [] } =
        formatResponse { answer := none, context := some [] }) ∧
    (formatResponse { answer := none, context := some [] }).status ≠ "" ∧
    (formatResponse { answer := none, context := some [] }).answer ≠ "" ∧
    (formatResponse { answer := none, context := some [] }).source ≠ "" :=
  ask_question_missing_keys { answer := none, context := some [] } (Or.inl rfl)

end RAGApp
